import Mathlib

/-!
# VolunteerHub backend: access gate and authentication flow

A shallow embedding of `server.js`: the API-key middleware (`apiKeyAuth` and the
wrapper mounted on `/api`), and the two authentication routes
(`POST /api/auth/register`, `POST /api/auth/login`), followed by the theorems
that settle the specification's claims about them.

Conventions of the embedding.

* A header value is `Option String`: `none` is JavaScript's `undefined`
  (header absent), `some s` is the string Node hands over.
* `Request.path` is `req.path` as the middleware sees it.  Express strips the
  mount point of `app.use('/api', ...)`, so the request `GET /api/health`
  reaches the wrapper and `apiKeyAuth` with `req.path = '/health'`.
* A middleware is a function to the list of effects it performs, in order:
  calling `next()` or sending a response.
-/

namespace VolunteerHub

/-! ## JavaScript string primitives used by the gate -/

/-- Removes `pat` from the front of `s` when `s` starts with it. -/
def dropLeading : List Char → List Char → Option (List Char)
  | [], s => some s
  | _ :: _, [] => none
  | p :: ps, c :: cs => if p = c then dropLeading ps cs else none

/-- The call `s.replace(pat, rep)` of JavaScript for a string pattern: the first
occurrence of `pat` in `s`, scanning from the left, is replaced by `rep`
(`rep` holds no `$` pattern; the source passes the empty string). -/
def replaceFirst (pat rep : List Char) : List Char → List Char
  | [] =>
    match dropLeading pat [] with
    | some rest => rep ++ rest
    | none => []
  | c :: cs =>
    match dropLeading pat (c :: cs) with
    | some rest => rep ++ rest
    | none => c :: replaceFirst pat rep cs

/-- The call `s.split(sep)` of JavaScript for a one-character separator. -/
def splitOnChar (sep : Char) : List Char → List (List Char)
  | [] => [[]]
  | c :: cs =>
    if c = sep then [] :: splitOnChar sep cs
    else
      match splitOnChar sep cs with
      | [] => [[c]]
      | w :: ws => (c :: w) :: ws

/-- The method `String.prototype.replace` on header strings. -/
def jsReplace (s pat rep : String) : String :=
  String.mk (replaceFirst pat.data rep.data s.data)

/-- The method `String.prototype.split` on header strings. -/
def jsSplit (s : String) (sep : Char) : List String :=
  (splitOnChar sep s.data).map String.mk

/-- JavaScript truthiness of a value that is a string or `undefined`. -/
def truthy : Option String → Bool
  | none => false
  | some s => decide (s ≠ "")

/-- The operator `a || b` on values that are strings or `undefined`. -/
def jsOr (a b : Option String) : Option String :=
  if truthy a then a else b

/-! ## Responses -/

/-- Identifier the database driver gives an inserted document. -/
abbrev ObjectId := Nat

/-- Claims carried by an identity token, `{ userId, username }` in the source. -/
structure TokenPayload where
  userId : ObjectId
  username : String
  deriving DecidableEq, Repr

/-- A signed token, symbolically: the payload, the key that signed it, and the
issue and expiry instants in seconds since the epoch. -/
structure Token where
  payload : TokenPayload
  key : String
  iat : Nat
  exp : Nat
  deriving DecidableEq, Repr

/-- Leaves of the JSON bodies the routes send. -/
inductive Scalar where
  | str (s : String)
  | oid (i : ObjectId)
  | jwt (t : Token)
  deriving DecidableEq, Repr

/-- JSON values of the bodies the routes send: a leaf or a flat object. -/
inductive Json where
  | val (v : Scalar)
  | obj (fields : List (String × Scalar))
  deriving DecidableEq, Repr

/-- The result of `res.status(status).json(body)`. -/
structure Response where
  status : Nat
  body : List (String × Json)
  deriving DecidableEq, Repr

/-- Keys of a JSON object, in order. -/
def keys {α : Type} (o : List (String × α)) : List String :=
  o.map Prod.fst

/-! ## The access gate (`server.js` lines 82-117) -/

/-- The part of an incoming request the gate reads. -/
structure Request where
  path : String
  xApiKey : Option String
  authorization : Option String
  deriving DecidableEq, Repr

/-- What a middleware does with a request. -/
inductive Effect where
  | next
  | respond (r : Response)
  deriving DecidableEq, Repr

/-- The fallback of `process.env.API_KEY || '...'`. -/
def defaultApiKey : String := "vh_api_key_2025_secure_access"

/-- The constant `API_KEY`: the environment variable, or the fallback when it
is unset or empty. -/
def configuredApiKey (envApiKey : Option String) : String :=
  match jsOr envApiKey (some defaultApiKey) with
  | some k => k
  | none => defaultApiKey

/-- The local `apiKey` of `apiKeyAuth`:
`req.headers['x-api-key'] || req.headers['authorization']?.replace('Bearer ', '')`. -/
def candidateKey (req : Request) : Option String :=
  jsOr req.xApiKey (req.authorization.map fun a => jsReplace a "Bearer " "")

/-- The local `token` of `apiKeyAuth`: `req.headers.authorization?.split(' ')[1]`. -/
def bearerToken (req : Request) : Option String :=
  req.authorization.bind fun a => (jsSplit a ' ')[1]?

/-- The 401 response of `apiKeyAuth`. -/
def authRequired : Response :=
  { status := 401
    body := [("message", .val (.str "API key or authentication token required")),
             ("hint", .val (.str "Include X-API-Key header or Authorization header"))] }

/-- The middleware `apiKeyAuth`, with the constant `API_KEY` as a parameter. -/
def apiKeyAuth (API_KEY : String) (req : Request) : List Effect :=
  let apiKey := candidateKey req
  if apiKey = some API_KEY then [Effect.next]
  else if req.path = "/api/health" ∨ req.path = "/api/test-db" then [Effect.next]
  else
    let token := bearerToken req
    if (!truthy apiKey && !truthy token) = true then [Effect.respond authRequired]
    else [Effect.next]

/-- The wrapper of `app.use('/api', ...)` around `apiKeyAuth`. -/
def apiGate (API_KEY : String) (req : Request) : List Effect :=
  if req.path = "/health" ∨ req.path = "/test-db" then [Effect.next]
  else apiKeyAuth API_KEY req

/-- Number of calls of `next()` in a run of a middleware. -/
def nextCalls (es : List Effect) : Nat :=
  es.count Effect.next

/-- Whether a run of a middleware sent a response with the given status. -/
def respondsWith (status : Nat) (es : List Effect) : Prop :=
  ∃ r, Effect.respond r ∈ es ∧ r.status = status

/-! ## The users collection and the external collaborators -/

/-- A document of the `users` collection, as `POST /api/auth/register` writes
it, with the `_id` the driver adds on insertion. -/
structure UserDoc where
  _id : ObjectId
  firstName : String
  lastName : String
  email : String
  username : String
  password : String
  phoneNumber : String
  zipCode : String
  createdAt : Nat
  isActive : Bool
  deriving DecidableEq, Repr

/-- The object `newUser` handed to `insertOne`: a document without its `_id`. -/
structure NewUser where
  firstName : String
  lastName : String
  email : String
  username : String
  password : String
  phoneNumber : String
  zipCode : String
  createdAt : Nat
  isActive : Bool
  deriving DecidableEq, Repr

/-- An equality condition on a declared field of a user document. -/
inductive Cond where
  | email (v : String)
  | username (v : String)
  deriving DecidableEq, Repr

/-- Whether a document satisfies an equality condition. -/
def Cond.holds (u : UserDoc) : Cond → Bool
  | Cond.email v => decide (u.email = v)
  | Cond.username v => decide (u.username = v)

/-- The query `collection.findOne({ $or: conds })`: the first stored document
that satisfies one of the conditions. -/
def findOne (conds : List Cond) (users : List UserDoc) : Option UserDoc :=
  users.find? fun u => conds.any (Cond.holds u)

/-- The document stored for `newUser` under the identifier `id`. -/
def NewUser.withId (n : NewUser) (id : ObjectId) : UserDoc :=
  { _id := id
    firstName := n.firstName
    lastName := n.lastName
    email := n.email
    username := n.username
    password := n.password
    phoneNumber := n.phoneNumber
    zipCode := n.zipCode
    createdAt := n.createdAt
    isActive := n.isActive }

/-- The call `collection.insertOne(doc)`: the document is appended under the
identifier the driver generated, which is returned as `insertedId`. -/
def insertOne (users : List UserDoc) (doc : NewUser) (id : ObjectId) : ObjectId × List UserDoc :=
  (id, users ++ [doc.withId id])

/-- The global `db` restricted to the `users` collection: `none` until
`connectToMongoDB` has assigned it. -/
abbrev Db := Option (List UserDoc)

/-- The helper `getCollection('users')`: throws when `db` is not set. -/
def getCollection (db : Db) : Except String (List UserDoc) :=
  match db with
  | none => Except.error "Database not connected"
  | some users => Except.ok users

/-- The library `bcryptjs` as the routes use it. -/
structure Bcrypt where
  hash : String → Nat → String
  compare : String → String → Bool

/-- What a handler run gets from outside the program: the password hasher, the
clock (`Date.now()`, milliseconds), the identifier the driver will generate for
the next inserted document, and `process.env.JWT_SECRET`. -/
structure Env where
  bcrypt : Bcrypt
  now : Nat
  freshId : ObjectId
  jwtSecret : Option String

/-- Calls a handler makes to its collaborators, in order. -/
inductive Call where
  | findOne (conds : List Cond)
  | bcryptHash (password : String) (rounds : Nat)
  | insertOne (doc : NewUser)
  | bcryptCompare (password : String) (hashed : String)
  | jwtSign (payload : TokenPayload) (secret : String) (expiresIn : String)
  deriving DecidableEq, Repr

/-- A run of a route handler: the response sent, the database afterwards and
the calls made. -/
structure Outcome where
  response : Response
  db : Db
  calls : List Call
  deriving DecidableEq, Repr

/-- Whether a call is a call of `insertOne`. -/
def Call.isInsertOne : Call → Bool
  | Call.insertOne _ => true
  | _ => false

/-! ## Token service -/

/-- Milliseconds of a time unit in a span string. -/
def unitMillis : List Char → Option Nat
  | ['s'] => some 1000
  | ['m'] => some (60 * 1000)
  | ['h'] => some (60 * 60 * 1000)
  | ['d'] => some (24 * 60 * 60 * 1000)
  | _ => none

/-- Value of a decimal digit. -/
def digitValue (c : Char) : Option Nat :=
  if '0' ≤ c ∧ c ≤ '9' then some (c.toNat - '0'.toNat) else none

/-- Reads a span such as `7d`: leading decimal digits, then a unit. `acc` is
the number read so far and `seen` tells whether a digit was read. -/
def readSpan (acc : Nat) (seen : Bool) : List Char → Option Nat
  | [] => none
  | c :: cs =>
    match digitValue c with
    | some d => readSpan (10 * acc + d) true cs
    | none => if seen then (unitMillis (c :: cs)).map fun u => acc * u else none

/-- Modelled from the spec: the token service of section 4.2 is the library
`jsonwebtoken`, which is not part of the source. A span string such as `7d`
denotes that many days, in milliseconds. -/
def spanMillis (span : String) : Option Nat :=
  readSpan 0 false span.data

/-- Modelled from the spec: `issue(subjectId, subjectUsername, secret)` of
section 4.2, the call `jwt.sign(payload, secret, { expiresIn })`. The token is
issued at the current second and expires the given span later; an unreadable
span makes the call throw. -/
def jwtSign (payload : TokenPayload) (secret : String) (expiresIn : String) (nowMs : Nat) :
    Except String Token :=
  match spanMillis expiresIn with
  | none => Except.error "expiresIn should be a number of seconds or a string representing a timespan"
  | some ms =>
    Except.ok { payload := payload, key := secret, iat := nowMs / 1000, exp := nowMs / 1000 + ms / 1000 }

/-- Result of verifying a token. -/
inductive Verified where
  | valid (payload : TokenPayload)
  | expired
  | invalidSignature
  deriving DecidableEq, Repr

/-- Modelled from the spec: `verify(token, secret)` of section 4.2, which no
route of the source calls. The signature is checked against the secret first;
a token is expired from its expiry instant on. -/
def jwtVerify (t : Token) (secret : String) (nowMs : Nat) : Verified :=
  if t.key ≠ secret then Verified.invalidSignature
  else if t.exp ≤ nowMs / 1000 then Verified.expired
  else Verified.valid t.payload

/-- The fallback of `process.env.JWT_SECRET || '...'`. -/
def defaultJwtSecret : String := "your-secret-key"

/-- The signing secret `process.env.JWT_SECRET || 'your-secret-key'`. -/
def signingSecret (envSecret : Option String) : String :=
  match jsOr envSecret (some defaultJwtSecret) with
  | some k => k
  | none => defaultJwtSecret

/-! ## Authentication routes (`server.js` lines 153-258) -/

/-- Body of `POST /api/auth/register`, every field a string. -/
structure RegisterBody where
  firstName : String
  lastName : String
  email : String
  username : String
  password : String
  phoneNumber : String
  zipCode : String
  deriving DecidableEq, Repr

/-- Body of `POST /api/auth/login`, both fields strings. -/
structure LoginBody where
  username : String
  password : String
  deriving DecidableEq, Repr

/-- The 400 response of the registration route. -/
def userExists : Response :=
  { status := 400
    body := [("message", .val (.str "User with this email or username already exists"))] }

/-- The 201 response of the registration route. -/
def registered (insertedId : ObjectId) : Response :=
  { status := 201
    body := [("message", .val (.str "User registered successfully")),
             ("userId", .val (.oid insertedId))] }

/-- The 500 response of a `catch` block. -/
def failed (message error : String) : Response :=
  { status := 500
    body := [("message", .val (.str message)), ("error", .val (.str error))] }

/-- The filter of the registration route: `{ $or: [{ email }, { username }] }`. -/
def registerFilter (body : RegisterBody) : List Cond :=
  [Cond.email body.email, Cond.username body.username]

/-- The object `newUser` of the registration route. -/
def newUserOf (env : Env) (body : RegisterBody) : NewUser :=
  { firstName := body.firstName
    lastName := body.lastName
    email := body.email
    username := body.username
    password := env.bcrypt.hash body.password 10
    phoneNumber := body.phoneNumber
    zipCode := body.zipCode
    createdAt := env.now
    isActive := true }

/-- The handler of `POST /api/auth/register`. -/
def register (env : Env) (db : Db) (body : RegisterBody) : Outcome :=
  match getCollection db with
  | Except.error e => { response := failed "Registration failed" e, db := db, calls := [] }
  | Except.ok users =>
    match findOne (registerFilter body) users with
    | some _ =>
      { response := userExists, db := some users, calls := [Call.findOne (registerFilter body)] }
    | none =>
      let newUser := newUserOf env body
      let result := insertOne users newUser env.freshId
      { response := registered result.1
        db := some result.2
        calls := [Call.findOne (registerFilter body), Call.bcryptHash body.password 10,
                  Call.insertOne newUser] }

/-- The 401 response of the login route. -/
def invalidCredentials : Response :=
  { status := 401, body := [("message", .val (.str "Invalid credentials"))] }

/-- The 200 response of the login route. -/
def loggedIn (token : Token) (user : UserDoc) : Response :=
  { status := 200
    body := [("message", .val (.str "Login successful")),
             ("token", .val (.jwt token)),
             ("user", .obj [("id", .oid user._id),
                            ("username", .str user.username),
                            ("firstName", .str user.firstName),
                            ("lastName", .str user.lastName),
                            ("email", .str user.email)])] }

/-- The filter of the login route: `{ $or: [{ username }, { email: username }] }`. -/
def loginFilter (body : LoginBody) : List Cond :=
  [Cond.username body.username, Cond.email body.username]

/-- The payload the login route signs: `{ userId: user._id, username: user.username }`. -/
def payloadOf (user : UserDoc) : TokenPayload :=
  { userId := user._id, username := user.username }

/-- The handler of `POST /api/auth/login`. -/
def login (env : Env) (db : Db) (body : LoginBody) : Outcome :=
  match getCollection db with
  | Except.error e => { response := failed "Login failed" e, db := db, calls := [] }
  | Except.ok users =>
    match findOne (loginFilter body) users with
    | none =>
      { response := invalidCredentials, db := some users, calls := [Call.findOne (loginFilter body)] }
    | some user =>
      if env.bcrypt.compare body.password user.password = false then
        { response := invalidCredentials
          db := some users
          calls := [Call.findOne (loginFilter body), Call.bcryptCompare body.password user.password] }
      else
        let secret := signingSecret env.jwtSecret
        let calls := [Call.findOne (loginFilter body),
                      Call.bcryptCompare body.password user.password,
                      Call.jwtSign (payloadOf user) secret "7d"]
        match jwtSign (payloadOf user) secret "7d" env.now with
        | Except.error e => { response := failed "Login failed" e, db := some users, calls := calls }
        | Except.ok token => { response := loggedIn token user, db := some users, calls := calls }

/-- The token in the body of a response, when it has one. -/
def Response.token? (r : Response) : Option Token :=
  match r.body.lookup "token" with
  | some (Json.val (Scalar.jwt t)) => some t
  | _ => none

/-- The field `user.id` in the body of a response, when it has one. -/
def Response.userId? (r : Response) : Option ObjectId :=
  match r.body.lookup "user" with
  | some (Json.obj fields) =>
    match fields.lookup "id" with
    | some (Scalar.oid i) => some i
    | _ => none
  | _ => none

/-- A toy hasher for concrete runs: it tags the plaintext, and `compare`
re-hashes and compares, so that `compare p (hash p 10)` holds for every `p`. -/
def tagBcrypt : Bcrypt :=
  { hash := fun p _ => "$2a$10$" ++ p
    compare := fun p h => decide (h = "$2a$10$" ++ p) }

/-! ## Concrete data for example runs -/

/-- An environment with the toy hasher, no `JWT_SECRET`, and 2 as the next
generated identifier. -/
def sampleEnv : Env :=
  { bcrypt := tagBcrypt, now := 1000000123, freshId := 2, jwtSecret := none }

/-- A stored account whose e-mail field holds the text `alice`. -/
def bobDoc : UserDoc :=
  { _id := 1, firstName := "Bob", lastName := "Builder", email := "alice", username := "bob",
    password := "$2a$10$hunter2", phoneNumber := "555-0100", zipCode := "10001",
    createdAt := 1000000000, isActive := true }

/-- A stored account with an ordinary e-mail address. -/
def carolDoc : UserDoc :=
  { _id := 1, firstName := "Carol", lastName := "Jones", email := "c@x.com", username := "carol",
    password := "$2a$10$s3cret", phoneNumber := "555-0101", zipCode := "10002",
    createdAt := 1000000000, isActive := true }

/-- The registration body of the spec's scenario. -/
def aliceBody : RegisterBody :=
  { firstName := "Alice", lastName := "Liddell", email := "a@x.com", username := "alice",
    password := "p@ss1234", phoneNumber := "555-0102", zipCode := "10003" }

/-! ## Lemmas on the string primitives -/

theorem dropLeading_eq_some {pat s rest : List Char} :
    dropLeading pat s = some rest ↔ s = pat ++ rest := by
  induction pat generalizing s with
  | nil => simp [dropLeading, eq_comm]
  | cons p ps ih =>
    cases s with
    | nil => simp [dropLeading]
    | cons c cs =>
      by_cases h : p = c
      · subst h
        simp [dropLeading, ih]
      · simp [dropLeading, h, Ne.symm h]

theorem replaceFirst_eq_nil {pat s : List Char} (hpat : pat ≠ []) :
    replaceFirst pat [] s = [] ↔ s = [] ∨ s = pat := by
  cases s with
  | nil =>
    cases pat with
    | nil => exact absurd rfl hpat
    | cons p ps => simp [replaceFirst, dropLeading]
  | cons c cs =>
    cases h : dropLeading pat (c :: cs) with
    | none =>
      have hne : c :: cs ≠ pat := by
        intro heq
        have : dropLeading pat (c :: cs) = some [] := dropLeading_eq_some.2 (by simp [heq])
        rw [h] at this
        cases this
      simp [replaceFirst, h, hne]
    | some rest =>
      have hs := dropLeading_eq_some.1 h
      simp only [replaceFirst, h, List.nil_append]
      constructor
      · intro hr
        subst hr
        right
        simpa using hs
      · rintro (h0 | h1)
        · cases h0
        · rw [h1] at hs
          have hcancel : pat ++ [] = pat ++ rest := by simpa using hs
          exact (List.append_cancel_left hcancel).symm

theorem jsReplace_bearer_eq_empty (a : String) :
    jsReplace a "Bearer " "" = "" ↔ a = "" ∨ a = "Bearer " := by
  have hpat : ("Bearer " : String).data ≠ [] := by decide
  have h : replaceFirst ("Bearer " : String).data [] a.data = [] ↔
      a.data = [] ∨ a.data = ("Bearer " : String).data := replaceFirst_eq_nil hpat
  have hmk : ∀ l : List Char, String.mk l = "" ↔ l = [] := by
    intro l
    constructor
    · intro hl
      have := congrArg String.data hl
      simpa using this
    · intro hl
      subst hl
      rfl
  have hdata : ∀ b : String, a = b ↔ a.data = b.data := fun b => String.ext_iff
  unfold jsReplace
  rw [hmk]
  show replaceFirst ("Bearer " : String).data [] a.data = [] ↔ _
  rw [h, hdata "", hdata "Bearer "]

/-! ## Lemmas on the access gate -/

theorem truthy_eq_false (v : Option String) :
    truthy v = false ↔ v = none ∨ v = some "" := by
  cases v with
  | none => simp [truthy]
  | some s => simp [truthy]

theorem truthy_jsOr (a b : Option String) :
    truthy (jsOr a b) = (truthy a || truthy b) := by
  unfold jsOr
  cases h : truthy a <;> simp [h]

theorem candidateKey_falsy (req : Request) :
    truthy (candidateKey req) = false ↔
      (req.xApiKey = none ∨ req.xApiKey = some "") ∧
      (req.authorization = none ∨ req.authorization = some "" ∨
        req.authorization = some "Bearer ") := by
  unfold candidateKey
  rw [truthy_jsOr, Bool.or_eq_false_iff, truthy_eq_false, truthy_eq_false]
  cases req.authorization with
  | none => simp
  | some a => simp [jsReplace_bearer_eq_empty]

theorem bearerToken_falsy_of_candidate_falsy (req : Request)
    (h : truthy (candidateKey req) = false) : truthy (bearerToken req) = false := by
  obtain ⟨_, ha⟩ := (candidateKey_falsy req).1 h
  unfold bearerToken
  rcases ha with ha | ha | ha <;> rw [ha] <;> decide

theorem apiKeyAuth_eq {k : String} (hk : k ≠ "") (req : Request) :
    apiKeyAuth k req =
      if req.path = "/api/health" ∨ req.path = "/api/test-db" then [Effect.next]
      else if truthy (candidateKey req) = false then [Effect.respond authRequired]
      else [Effect.next] := by
  unfold apiKeyAuth
  by_cases hc : candidateKey req = some k
  · have ht : truthy (some k) = true := by simp [truthy, hk]
    simp [hc, ht]
  · by_cases hf : truthy (candidateKey req) = false
    · have htok := bearerToken_falsy_of_candidate_falsy req hf
      simp [hc, hf, htok]
    · have ht : truthy (candidateKey req) = true := by simpa using hf
      simp [hc, ht]

theorem apiGate_eq {k : String} (hk : k ≠ "") (req : Request) :
    apiGate k req =
      if req.path = "/health" ∨ req.path = "/test-db" ∨
          req.path = "/api/health" ∨ req.path = "/api/test-db" then [Effect.next]
      else if truthy (candidateKey req) = false then [Effect.respond authRequired]
      else [Effect.next] := by
  unfold apiGate
  rw [apiKeyAuth_eq hk]
  by_cases h1 : req.path = "/health" ∨ req.path = "/test-db"
  · have : req.path = "/health" ∨ req.path = "/test-db" ∨
        req.path = "/api/health" ∨ req.path = "/api/test-db" := by tauto
    rw [if_pos h1, if_pos this]
  · by_cases h2 : req.path = "/api/health" ∨ req.path = "/api/test-db"
    · have : req.path = "/health" ∨ req.path = "/test-db" ∨
          req.path = "/api/health" ∨ req.path = "/api/test-db" := by tauto
      rw [if_neg h1, if_pos h2, if_pos this]
    · have : ¬ (req.path = "/health" ∨ req.path = "/test-db" ∨
          req.path = "/api/health" ∨ req.path = "/api/test-db") := by tauto
      rw [if_neg h1, if_neg h2, if_neg this]

theorem configuredApiKey_ne_empty (envApiKey : Option String) :
    configuredApiKey envApiKey ≠ "" := by
  unfold configuredApiKey jsOr
  cases envApiKey with
  | none => decide
  | some k =>
    by_cases hk : k = ""
    · subst hk
      decide
    · simp [truthy, hk]

/-! ## Claims on the access gate -/

/-- C1: the gate does not behave as claimed at a wrong key. With `API_KEY`
left at its fallback, the request to `/api/activities` with the header
`X-API-Key: wrong` and no `Authorization` header has a candidate key that
differs from `API_KEY` and carries no bearer token, yet the gate calls `next()`
and sends no 401. -/
theorem apiGate_wrong_key_passes :
    candidateKey ⟨"/activities", some "wrong", none⟩ = some "wrong" ∧
    some "wrong" ≠ some (configuredApiKey none) ∧
    bearerToken ⟨"/activities", some "wrong", none⟩ = none ∧
    apiGate (configuredApiKey none) ⟨"/activities", some "wrong", none⟩ = [Effect.next] := by
  decide

/-- C2: the gate does not behave as claimed at `GET /api/api/health`. There
`req.path` is `/api/health`, which is neither `/health` nor `/test-db`, and the
request has neither an `X-API-Key` nor an `Authorization` header; the path
check inside `apiKeyAuth`, written for the health endpoint, matches it, so the
gate calls `next()` once and sends no 401. -/
theorem apiGate_nested_health_passes :
    (Request.mk "/api/health" none none).path ≠ "/health" ∧
    (Request.mk "/api/health" none none).path ≠ "/test-db" ∧
    candidateKey ⟨"/api/health", none, none⟩ = none ∧
    bearerToken ⟨"/api/health", none, none⟩ = none ∧
    apiGate (configuredApiKey none) ⟨"/api/health", none, none⟩ = [Effect.next] ∧
    nextCalls (apiGate (configuredApiKey none) ⟨"/api/health", none, none⟩) = 1 ∧
    apiGate (configuredApiKey none) ⟨"/api/health", none, none⟩ ≠
      [Effect.respond authRequired] := by
  decide

/-- C3: for `GET /api/health` and `GET /api/test-db` (`req.path` is `/health`
or `/test-db` under the mount), whatever the configured key and whatever the
`X-API-Key` and `Authorization` headers, the gate calls `next()` exactly once
and sends no 401 response. -/
theorem apiGate_exempt_passes (k : String) (req : Request)
    (h : req.path = "/health" ∨ req.path = "/test-db") :
    apiGate k req = [Effect.next] ∧ nextCalls (apiGate k req) = 1 ∧
      ¬ respondsWith 401 (apiGate k req) := by
  have hrun : apiGate k req = [Effect.next] := by
    unfold apiGate
    simp [h]
  rw [hrun]
  refine ⟨rfl, by decide, ?_⟩
  rintro ⟨r, hr, _⟩
  simp at hr

theorem apiGate_exempt_passes_witness :
    apiGate "secret" ⟨"/health", some "wrong", some "Basic abc"⟩ = [Effect.next] ∧
    nextCalls (apiGate "secret" ⟨"/health", some "wrong", some "Basic abc"⟩) = 1 ∧
      ¬ respondsWith 401 (apiGate "secret" ⟨"/health", some "wrong", some "Basic abc"⟩) :=
  apiGate_exempt_passes "secret" ⟨"/health", some "wrong", some "Basic abc"⟩ (Or.inl rfl)

/-- C10, as stated, fails in its second half: the request to
`/api/api/test-db` (`req.path` is `/api/test-db`, neither `/health` nor
`/test-db`) with no `X-API-Key` and no `Authorization` is not rejected. -/
theorem apiGate_rejection_not_only_by_headers :
    ¬ ∀ (k : String) (req : Request), k ≠ "" → req.path ≠ "/health" → req.path ≠ "/test-db" →
      (apiGate k req = [Effect.respond authRequired] ↔
        (req.xApiKey = none ∨ req.xApiKey = some "") ∧
        (req.authorization = none ∨ req.authorization = some "" ∨
          req.authorization = some "Bearer ")) := by
  intro h
  have := (h defaultApiKey ⟨"/api/test-db", none, none⟩ (by decide) (by decide) (by decide)).2
    ⟨Or.inl rfl, Or.inl rfl⟩
  revert this
  decide

/-- C10, amended: the run of the gate is the same under any two non-empty
values of `API_KEY`, for every path and every header combination; and a request
whose path under `/api` is none of `/health`, `/test-db`, `/api/health`,
`/api/test-db` is rejected with the 401 response exactly when `X-API-Key` is
absent or empty and `Authorization` is absent, empty or exactly `Bearer `, and
is passed to `next()` otherwise. -/
theorem apiGate_independent_of_key (k1 k2 : String) (req : Request)
    (hk1 : k1 ≠ "") (hk2 : k2 ≠ "") :
    apiGate k1 req = apiGate k2 req ∧
    (Effect.next ∈ apiGate k1 req ↔ Effect.next ∈ apiGate k2 req) ∧
    (req.path ≠ "/health" → req.path ≠ "/test-db" →
      req.path ≠ "/api/health" → req.path ≠ "/api/test-db" →
      (apiGate k1 req = [Effect.respond authRequired] ↔
        (req.xApiKey = none ∨ req.xApiKey = some "") ∧
        (req.authorization = none ∨ req.authorization = some "" ∨
          req.authorization = some "Bearer ")) ∧
      (apiGate k1 req ≠ [Effect.respond authRequired] → apiGate k1 req = [Effect.next])) := by
  have heq : apiGate k1 req = apiGate k2 req := by
    rw [apiGate_eq hk1, apiGate_eq hk2]
  refine ⟨heq, by rw [heq], ?_⟩
  intro h1 h2 h3 h4
  have hp : ¬ (req.path = "/health" ∨ req.path = "/test-db" ∨
      req.path = "/api/health" ∨ req.path = "/api/test-db") := by tauto
  rw [apiGate_eq hk1, if_neg hp, ← candidateKey_falsy]
  by_cases hf : truthy (candidateKey req) = false
  · simp [hf]
  · simp [hf]

theorem apiGate_independent_of_key_witness :
    apiGate "secret" ⟨"/activities", some "", some "Bearer "⟩ =
      apiGate defaultApiKey ⟨"/activities", some "", some "Bearer "⟩ ∧
    apiGate "secret" ⟨"/activities", some "", some "Bearer "⟩ = [Effect.respond authRequired] :=
  have h := apiGate_independent_of_key "secret" defaultApiKey
    ⟨"/activities", some "", some "Bearer "⟩ (by decide) (by decide)
  ⟨h.1, (h.2.2 (by decide) (by decide) (by decide) (by decide)).1.2
    ⟨Or.inr rfl, Or.inr (Or.inr rfl)⟩⟩

/-! ## Lemmas on the users collection and the routes -/

theorem findOne_eq_none {conds : List Cond} {users : List UserDoc} :
    findOne conds users = none ↔ ∀ u ∈ users, conds.any (Cond.holds u) = false := by
  unfold findOne
  simp [List.find?_eq_none]

theorem findOne_isSome_of_mem {conds : List Cond} {users : List UserDoc} {u : UserDoc}
    (hu : u ∈ users) (hc : conds.any (Cond.holds u) = true) :
    ∃ v, findOne conds users = some v := by
  cases h : findOne conds users with
  | some v => exact ⟨v, rfl⟩
  | none =>
    have := findOne_eq_none.1 h u hu
    rw [hc] at this
    cases this

theorem findOne_append_single {conds : List Cond} {users : List UserDoc} {d : UserDoc}
    (hnone : findOne conds users = none) (hd : conds.any (Cond.holds d) = true) :
    findOne conds (users ++ [d]) = some d := by
  unfold findOne at *
  rw [List.find?_append, hnone]
  simp [List.find?, hd]

theorem registerFilter_any (body : RegisterBody) (u : UserDoc) :
    (registerFilter body).any (Cond.holds u) = true ↔
      u.email = body.email ∨ u.username = body.username := by
  simp [registerFilter, Cond.holds]

theorem loginFilter_any (body : LoginBody) (u : UserDoc) :
    (loginFilter body).any (Cond.holds u) = true ↔
      u.username = body.username ∨ u.email = body.username := by
  simp [loginFilter, Cond.holds]

theorem register_of_found {env : Env} {users : List UserDoc} {body : RegisterBody} {u : UserDoc}
    (h : findOne (registerFilter body) users = some u) :
    register env (some users) body =
      { response := userExists, db := some users, calls := [Call.findOne (registerFilter body)] } := by
  simp [register, getCollection, h]

theorem register_of_not_found {env : Env} {users : List UserDoc} {body : RegisterBody}
    (h : findOne (registerFilter body) users = none) :
    register env (some users) body =
      { response := registered env.freshId
        db := some (users ++ [(newUserOf env body).withId env.freshId])
        calls := [Call.findOne (registerFilter body), Call.bcryptHash body.password 10,
                  Call.insertOne (newUserOf env body)] } := by
  simp [register, getCollection, h, insertOne]

theorem register_created_iff {env : Env} {users : List UserDoc} {body : RegisterBody} :
    (register env (some users) body).response.status = 201 ↔
      findOne (registerFilter body) users = none := by
  cases h : findOne (registerFilter body) users with
  | none => simp [register_of_not_found h, registered]
  | some u => simp [register_of_found h, userExists]

theorem spanMillis_7d : spanMillis "7d" = some 604800000 := by decide

theorem login_of_not_found {env : Env} {users : List UserDoc} {body : LoginBody}
    (h : findOne (loginFilter body) users = none) :
    login env (some users) body =
      { response := invalidCredentials, db := some users, calls := [Call.findOne (loginFilter body)] } := by
  simp [login, getCollection, h]

theorem login_of_wrong_password {env : Env} {users : List UserDoc} {body : LoginBody}
    {u : UserDoc} (h : findOne (loginFilter body) users = some u)
    (hc : env.bcrypt.compare body.password u.password = false) :
    login env (some users) body =
      { response := invalidCredentials
        db := some users
        calls := [Call.findOne (loginFilter body), Call.bcryptCompare body.password u.password] } := by
  simp [login, getCollection, h, hc]

/-- The token the login route issues for an account at a given instant. -/
theorem login_of_valid {env : Env} {users : List UserDoc} {body : LoginBody}
    {u : UserDoc} (h : findOne (loginFilter body) users = some u)
    (hc : env.bcrypt.compare body.password u.password = true) :
    login env (some users) body =
      { response :=
          loggedIn
            { payload := payloadOf u
              key := signingSecret env.jwtSecret
              iat := env.now / 1000
              exp := env.now / 1000 + 604800 } u
        db := some users
        calls := [Call.findOne (loginFilter body),
                  Call.bcryptCompare body.password u.password,
                  Call.jwtSign (payloadOf u) (signingSecret env.jwtSecret) "7d"] } := by
  simp [login, getCollection, h, hc, jwtSign, spanMillis_7d]

/-! ## Claims on the authentication routes -/

/-- C4, as stated, fails: with an account stored whose e-mail is the text
`alice`, registering the username `alice` succeeds with userId 2, but the login
that follows with the same username and password finds the older account first
and answers 401, although the hasher accepts every password against its own
hash. -/
theorem register_then_login_can_fail :
    ¬ ∀ (env : Env) (users : List UserDoc) (body : RegisterBody) (u : ObjectId),
      (∀ p, env.bcrypt.compare p (env.bcrypt.hash p 10) = true) →
      (register env (some users) body).response = registered u →
      (login env (register env (some users) body).db
          ⟨body.username, body.password⟩).response.status = 200 ∧
      ((login env (register env (some users) body).db
          ⟨body.username, body.password⟩).response.token?.map fun t => t.payload.userId) = some u ∧
      (login env (register env (some users) body).db
          ⟨body.username, body.password⟩).response.userId? = some u := by
  intro h
  have hb : ∀ p, sampleEnv.bcrypt.compare p (sampleEnv.bcrypt.hash p 10) = true := by
    intro p
    simp [sampleEnv, tagBcrypt]
  have := (h sampleEnv [bobDoc] aliceBody 2 hb (by decide)).1
  revert this
  decide

/-- C4, amended: when a registration succeeds with userId `u` and no account
stored before it has an e-mail equal to the registered username, the login
that follows with the same username and password answers 200 with a token
whose payload userId is `u` and with `user.id` equal to `u` (given that
`bcrypt.compare` accepts the password against the hash `bcrypt.hash` made of
it, and `findOne` returning the first stored match). -/
theorem register_then_login (env loginEnv : Env) (users : List UserDoc) (body : RegisterBody)
    (u : ObjectId)
    (hbcrypt : loginEnv.bcrypt.compare body.password (env.bcrypt.hash body.password 10) = true)
    (hreg : (register env (some users) body).response = registered u)
    (hemail : ∀ x ∈ users, x.email ≠ body.username) :
    (login loginEnv (register env (some users) body).db
        ⟨body.username, body.password⟩).response.status = 200 ∧
    ((login loginEnv (register env (some users) body).db
        ⟨body.username, body.password⟩).response.token?.map fun t => t.payload.userId) = some u ∧
    (login loginEnv (register env (some users) body).db
        ⟨body.username, body.password⟩).response.userId? = some u := by
  have hnone : findOne (registerFilter body) users = none := by
    apply register_created_iff.1
    rw [hreg]
    rfl
  rw [register_of_not_found hnone] at hreg ⊢
  have hu : env.freshId = u := by
    simpa [registered] using hreg
  subst hu
  have hlogin_none : findOne (loginFilter ⟨body.username, body.password⟩) users = none := by
    rw [findOne_eq_none]
    intro x hx
    have hx1 := findOne_eq_none.1 hnone x hx
    have hx2 : ¬ (x.email = body.email ∨ x.username = body.username) := by
      rw [← registerFilter_any, hx1]
      simp
    have hx3 : ¬ (x.username = body.username ∨ x.email = body.username) := by
      intro hor
      rcases hor with hor | hor
      · exact hx2 (Or.inr hor)
      · exact hemail x hx hor
    cases hany : (loginFilter ⟨body.username, body.password⟩).any (Cond.holds x) with
    | false => rfl
    | true => exact absurd ((loginFilter_any _ x).1 hany) hx3
  have hfound : findOne (loginFilter ⟨body.username, body.password⟩)
      (users ++ [(newUserOf env body).withId env.freshId]) =
      some ((newUserOf env body).withId env.freshId) := by
    apply findOne_append_single hlogin_none
    rw [loginFilter_any]
    left
    rfl
  have hcmp : loginEnv.bcrypt.compare (LoginBody.mk body.username body.password).password
      ((newUserOf env body).withId env.freshId).password = true := hbcrypt
  rw [login_of_valid hfound hcmp]
  exact ⟨rfl, rfl, rfl⟩

theorem register_then_login_witness :
    (login sampleEnv (register sampleEnv (some [carolDoc]) aliceBody).db
        ⟨aliceBody.username, aliceBody.password⟩).response.status = 200 ∧
    ((login sampleEnv (register sampleEnv (some [carolDoc]) aliceBody).db
        ⟨aliceBody.username, aliceBody.password⟩).response.token?.map
          fun t => t.payload.userId) = some 2 ∧
    (login sampleEnv (register sampleEnv (some [carolDoc]) aliceBody).db
        ⟨aliceBody.username, aliceBody.password⟩).response.userId? = some 2 :=
  register_then_login sampleEnv sampleEnv [carolDoc] aliceBody 2 (by decide) (by decide)
    (by decide)

/-- C5: when the users collection holds an account with the request's e-mail
or the request's username, the registration route answers 400 with the body
`{message: 'User with this email or username already exists'}`, makes no call
of `bcrypt.hash` or `insertOne`, and leaves the collection as it was. In
particular, after a registration `first` that succeeded, a second registration
with the same e-mail (whatever its username) is refused in that way and the
collection holds exactly one account with that e-mail. -/
theorem register_conflict (env : Env) (users : List UserDoc) (body : RegisterBody) :
    ((∃ x ∈ users, x.email = body.email ∨ x.username = body.username) →
      (register env (some users) body).response =
        { status := 400
          body := [("message", .val (.str "User with this email or username already exists"))] } ∧
      (register env (some users) body).db = some users ∧
      ∀ c ∈ (register env (some users) body).calls,
        (∀ p r, c ≠ Call.bcryptHash p r) ∧ ∀ d, c ≠ Call.insertOne d) ∧
    (∀ (env0 : Env) (first : RegisterBody), first.email = body.email →
      (register env0 (some users) first).response.status = 201 →
      (register env (register env0 (some users) first).db body).response =
        { status := 400
          body := [("message", .val (.str "User with this email or username already exists"))] } ∧
      (register env (register env0 (some users) first).db body).db =
        (register env0 (some users) first).db ∧
      ∃ stored, (register env (register env0 (some users) first).db body).db = some stored ∧
        (stored.filter fun x => decide (x.email = body.email)).length = 1) := by
  constructor
  · rintro ⟨x, hx, hmatch⟩
    obtain ⟨v, hv⟩ := findOne_isSome_of_mem hx ((registerFilter_any body x).2 hmatch)
    rw [register_of_found hv]
    refine ⟨rfl, rfl, ?_⟩
    intro c hc
    simp only [List.mem_singleton] at hc
    subst hc
    exact ⟨fun _ _ h => Call.noConfusion h, fun _ h => Call.noConfusion h⟩
  · intro env0 first hsame hcreated
    have hnone := register_created_iff.1 hcreated
    rw [register_of_not_found hnone]
    have hmem : (newUserOf env0 first).withId env0.freshId ∈
        users ++ [(newUserOf env0 first).withId env0.freshId] := by simp
    have hany : (registerFilter body).any
        (Cond.holds ((newUserOf env0 first).withId env0.freshId)) = true := by
      rw [registerFilter_any]
      left
      exact hsame
    obtain ⟨v, hv⟩ := findOne_isSome_of_mem hmem hany
    rw [register_of_found hv]
    refine ⟨rfl, rfl, _, rfl, ?_⟩
    have hold : users.filter (fun x => decide (x.email = body.email)) = [] := by
      rw [List.filter_eq_nil_iff]
      intro x hx
      have hx1 := findOne_eq_none.1 hnone x hx
      have hx2 : ¬ (x.email = first.email ∨ x.username = first.username) := by
        rw [← registerFilter_any, hx1]
        simp
      rw [← hsame]
      simpa using fun h => hx2 (Or.inl h)
    have hnew : ((newUserOf env0 first).withId env0.freshId).email = body.email := hsame
    simp [List.filter_append, hold, List.filter, hnew]

theorem register_conflict_witness :
    (register sampleEnv (some [carolDoc])
        { aliceBody with email := "c@x.com" }).response.status = 400 ∧
    (register sampleEnv (some [carolDoc]) { aliceBody with email := "c@x.com" }).db =
      some [carolDoc] ∧
    (register sampleEnv (register sampleEnv (some [carolDoc]) aliceBody).db
        { aliceBody with username := "alice2" }).response.status = 400 :=
  have h := register_conflict sampleEnv [carolDoc] { aliceBody with email := "c@x.com" }
  have h1 := h.1 ⟨carolDoc, by simp, Or.inl rfl⟩
  have h2 := (register_conflict sampleEnv [carolDoc] { aliceBody with username := "alice2" }).2
    sampleEnv aliceBody rfl (by decide)
  ⟨by rw [h1.1], h1.2.1, by rw [h2.1]⟩

/-- C6: a login whose identifier matches no stored account and a login that
finds an account but fails `bcrypt.compare` get the same response: status 401
with the body `{message: 'Invalid credentials'}`, whose only key is `message`,
so it has no token and no user field. -/
theorem login_failures_identical (env1 env2 : Env) (users1 users2 : List UserDoc)
    (unknown wrong : LoginBody) (account : UserDoc)
    (hnone : ∀ x ∈ users1, x.username ≠ unknown.username ∧ x.email ≠ unknown.username)
    (hfound : findOne (loginFilter wrong) users2 = some account)
    (hbad : env2.bcrypt.compare wrong.password account.password = false) :
    (login env1 (some users1) unknown).response = (login env2 (some users2) wrong).response ∧
    (login env2 (some users2) wrong).response =
      { status := 401, body := [("message", .val (.str "Invalid credentials"))] } ∧
    keys (login env2 (some users2) wrong).response.body = ["message"] ∧
    (login env2 (some users2) wrong).response.body.lookup "token" = none ∧
    (login env2 (some users2) wrong).response.body.lookup "user" = none := by
  have h1 : findOne (loginFilter unknown) users1 = none := by
    rw [findOne_eq_none]
    intro x hx
    cases hany : (loginFilter unknown).any (Cond.holds x) with
    | false => rfl
    | true =>
      rcases (loginFilter_any unknown x).1 hany with h | h
      · exact absurd h (hnone x hx).1
      · exact absurd h (hnone x hx).2
  rw [login_of_not_found h1, login_of_wrong_password hfound hbad]
  exact ⟨rfl, rfl, rfl, rfl, rfl⟩

theorem login_failures_identical_witness :
    (login sampleEnv (some [carolDoc]) ⟨"nobody", "s3cret"⟩).response =
      (login sampleEnv (some [carolDoc]) ⟨"carol", "wrong"⟩).response ∧
    (login sampleEnv (some [carolDoc]) ⟨"carol", "wrong"⟩).response.status = 401 :=
  have h := login_failures_identical sampleEnv sampleEnv [carolDoc] [carolDoc]
    ⟨"nobody", "s3cret"⟩ ⟨"carol", "wrong"⟩ carolDoc (by decide) (by decide) (by decide)
  ⟨h.1, by rw [h.2.1]⟩

/-- C7: when no stored account has the request's e-mail or username, the
registration route appends exactly one document, whose firstName, lastName,
email, username, phoneNumber and zipCode are the request's, whose password
field is `bcrypt.hash(password, 10)` (hence not the plaintext, bcrypt not
returning its input), and whose isActive is true. It answers 201 with a body
whose only keys are `message` and `userId`, the inserted identifier; the
response is the same whatever the password and whatever the hasher returns, so
it carries neither of them. -/
theorem register_success (env : Env) (users : List UserDoc) (body : RegisterBody)
    (hfree : ∀ x ∈ users, x.email ≠ body.email ∧ x.username ≠ body.username) :
    ∃ doc : UserDoc,
      (register env (some users) body).db = some (users ++ [doc]) ∧
      ((register env (some users) body).calls.filter Call.isInsertOne).length = 1 ∧
      Call.bcryptHash body.password 10 ∈ (register env (some users) body).calls ∧
      doc.firstName = body.firstName ∧ doc.lastName = body.lastName ∧
      doc.email = body.email ∧ doc.username = body.username ∧
      doc.phoneNumber = body.phoneNumber ∧ doc.zipCode = body.zipCode ∧
      doc.password = env.bcrypt.hash body.password 10 ∧
      (env.bcrypt.hash body.password 10 ≠ body.password → doc.password ≠ body.password) ∧
      doc.isActive = true ∧ doc.createdAt = env.now ∧
      (register env (some users) body).response =
        { status := 201
          body := [("message", .val (.str "User registered successfully")),
                   ("userId", .val (.oid doc._id))] } ∧
      keys (register env (some users) body).response.body = ["message", "userId"] ∧
      ∀ (hasher : Bcrypt) (password : String),
        (register { env with bcrypt := hasher } (some users)
          { body with password := password }).response =
        (register env (some users) body).response := by
  have hnone : ∀ b : RegisterBody, b.email = body.email → b.username = body.username →
      findOne (registerFilter b) users = none := by
    intro b he hu
    rw [findOne_eq_none]
    intro x hx
    cases hany : (registerFilter b).any (Cond.holds x) with
    | false => rfl
    | true =>
      rcases (registerFilter_any b x).1 hany with h | h
      · exact absurd (h.trans he) (hfree x hx).1
      · exact absurd (h.trans hu) (hfree x hx).2
  refine ⟨(newUserOf env body).withId env.freshId, ?_⟩
  rw [register_of_not_found (hnone body rfl rfl)]
  refine ⟨rfl, rfl, by simp, rfl, rfl, rfl, rfl, rfl, rfl, rfl, id, rfl, rfl, rfl, rfl, ?_⟩
  intro hasher password
  rw [register_of_not_found (hnone { body with password := password } rfl rfl)]

theorem register_success_witness :
    ∃ doc : UserDoc,
      (register sampleEnv (some [carolDoc]) aliceBody).db = some ([carolDoc] ++ [doc]) ∧
      doc.password = "$2a$10$p@ss1234" ∧ doc.password ≠ aliceBody.password ∧
      (register sampleEnv (some [carolDoc]) aliceBody).response.status = 201 :=
  have ⟨doc, h⟩ := register_success sampleEnv [carolDoc] aliceBody (by decide)
  ⟨doc, h.1, h.2.2.2.2.2.2.2.2.2.1, h.2.2.2.2.2.2.2.2.2.2.1 (by decide),
    by rw [h.2.2.2.2.2.2.2.2.2.2.2.2.2.1]⟩

/-- C8: when the login route finds an account and `bcrypt.compare` accepts the
password, it answers 200 with a body whose keys are exactly `message`, `token`
and `user`; `user` has exactly the keys `id`, `username`, `firstName`,
`lastName`, `email`, holding the stored `_id`, `username`, `firstName`,
`lastName` and `email`. The response is the same whatever the stored password
hash is, so the hash is nowhere in it. -/
theorem login_success (env : Env) (users : List UserDoc) (body : LoginBody) (account : UserDoc)
    (hfound : findOne (loginFilter body) users = some account)
    (hok : env.bcrypt.compare body.password account.password = true) :
    ∃ token : Token,
      (login env (some users) body).response =
        { status := 200
          body := [("message", .val (.str "Login successful")),
                   ("token", .val (.jwt token)),
                   ("user", .obj [("id", .oid account._id),
                                  ("username", .str account.username),
                                  ("firstName", .str account.firstName),
                                  ("lastName", .str account.lastName),
                                  ("email", .str account.email)])] } ∧
      keys (login env (some users) body).response.body = ["message", "token", "user"] ∧
      (∃ fields, (login env (some users) body).response.body.lookup "user" =
          some (Json.obj fields) ∧
        keys fields = ["id", "username", "firstName", "lastName", "email"]) ∧
      ∀ (otherHash : String) (otherUsers : List UserDoc),
        findOne (loginFilter body) otherUsers = some { account with password := otherHash } →
        env.bcrypt.compare body.password otherHash = true →
        (login env (some otherUsers) body).response = (login env (some users) body).response := by
  refine ⟨{ payload := payloadOf account, key := signingSecret env.jwtSecret,
            iat := env.now / 1000, exp := env.now / 1000 + 604800 }, ?_⟩
  rw [login_of_valid hfound hok]
  refine ⟨rfl, rfl, ⟨_, rfl, rfl⟩, ?_⟩
  intro otherHash otherUsers hfound2 hok2
  rw [login_of_valid hfound2 hok2]
  rfl

theorem login_success_witness :
    keys (login sampleEnv (some [carolDoc]) ⟨"c@x.com", "s3cret"⟩).response.body =
      ["message", "token", "user"] :=
  have ⟨_, h⟩ := login_success sampleEnv [carolDoc] ⟨"c@x.com", "s3cret"⟩ carolDoc
    (by decide) (by decide)
  h.2.1

/-- C9: the token of a successful login carries the payload
`{userId: account._id, username: account.username}`, is signed with
`JWT_SECRET` (with `your-secret-key` when that is unset), and expires 604800
seconds, 7 days, after its issue instant: verified with the same secret it is
valid as long as fewer than 604800 seconds have passed and expired from then
on, so valid 6 days after the login and expired 8 days after it. -/
theorem login_token_expiry (env : Env) (users : List UserDoc) (body : LoginBody)
    (account : UserDoc)
    (hfound : findOne (loginFilter body) users = some account)
    (hok : env.bcrypt.compare body.password account.password = true) :
    ∃ token : Token,
      (login env (some users) body).response.token? = some token ∧
      Call.jwtSign token.payload token.key "7d" ∈ (login env (some users) body).calls ∧
      token.payload = { userId := account._id, username := account.username } ∧
      (env.jwtSecret = none → token.key = "your-secret-key") ∧
      (∀ secret, env.jwtSecret = some secret → secret ≠ "" → token.key = secret) ∧
      token.iat = env.now / 1000 ∧
      token.exp = token.iat + 604800 ∧
      (∀ clock, clock / 1000 < token.iat + 604800 →
        jwtVerify token token.key clock = Verified.valid token.payload) ∧
      (∀ clock, token.iat + 604800 ≤ clock / 1000 →
        jwtVerify token token.key clock = Verified.expired) ∧
      jwtVerify token token.key (env.now + 6 * (24 * 60 * 60 * 1000)) =
        Verified.valid token.payload ∧
      jwtVerify token token.key (env.now + 8 * (24 * 60 * 60 * 1000)) = Verified.expired := by
  refine ⟨{ payload := payloadOf account, key := signingSecret env.jwtSecret,
            iat := env.now / 1000, exp := env.now / 1000 + 604800 }, ?_⟩
  rw [login_of_valid hfound hok]
  have hvalid : ∀ clock, clock / 1000 < env.now / 1000 + 604800 →
      jwtVerify { payload := payloadOf account, key := signingSecret env.jwtSecret,
                  iat := env.now / 1000, exp := env.now / 1000 + 604800 }
        (signingSecret env.jwtSecret) clock = Verified.valid (payloadOf account) := by
    intro clock h
    simp [jwtVerify, Nat.not_le.2 h]
  have hexpired : ∀ clock, env.now / 1000 + 604800 ≤ clock / 1000 →
      jwtVerify { payload := payloadOf account, key := signingSecret env.jwtSecret,
                  iat := env.now / 1000, exp := env.now / 1000 + 604800 }
        (signingSecret env.jwtSecret) clock = Verified.expired := by
    intro clock h
    simp [jwtVerify, h]
  refine ⟨rfl, by simp, rfl, ?_, ?_, rfl, rfl, hvalid, hexpired, ?_, ?_⟩
  · intro h
    simp [h, signingSecret, jsOr, truthy, defaultJwtSecret]
  · intro secret h hne
    simp [h, signingSecret, jsOr, truthy, hne]
  · apply hvalid
    omega
  · apply hexpired
    omega

theorem login_token_expiry_witness :
    ∃ token : Token,
      (login sampleEnv (some [carolDoc]) ⟨"carol", "s3cret"⟩).response.token? = some token ∧
      token.exp = token.iat + 604800 ∧
      jwtVerify token token.key (sampleEnv.now + 6 * (24 * 60 * 60 * 1000)) =
        Verified.valid token.payload ∧
      jwtVerify token token.key (sampleEnv.now + 8 * (24 * 60 * 60 * 1000)) = Verified.expired :=
  have ⟨token, h⟩ := login_token_expiry sampleEnv [carolDoc] ⟨"carol", "s3cret"⟩ carolDoc
    (by decide) (by decide)
  ⟨token, h.1, h.2.2.2.2.2.2.1, h.2.2.2.2.2.2.2.2.2.1, h.2.2.2.2.2.2.2.2.2.2⟩

end VolunteerHub
